import Mathlib

/-!
Verification of the configuration resolvers of RfPy (src/rfpy/options.py).

The module under scrutiny defines six command-line option surfaces
(get_calc_options, get_recalc_options, get_hk_options,
get_harmonics_options, get_ccp_options, get_plot_options).  Each reads the
values produced by optparse, applies defaults, validates cross-field
constraints and either aborts with a parser error or returns the resolved
record.

Embedding conventions:
* Python floats are modelled by the rationals: every literal in the source
  is an exact decimal and every operation performed on these values
  (comparison, sorting, subtraction of 10) is exact on such inputs.
* The state of an option after optparse has run is a record (one per
  variant); a comma-separated numeric option is carried as the list of its
  converted floats (the split on commas plus float conversion succeeded),
  absent options are `none`.
* The argv arity check and the station-database existence check are
  process-level I/O that happens before any field validation and touches no
  field of the record; the embedding starts right after them.
* obspy.UTCDateTime is an external collaborator; its constructor is passed
  to the resolvers as a function `utc` returning `none` exactly when the
  Python constructor raises.
* A call to parser.error is an `Except.error` carrying a constructor of
  `Err` that identifies the failing check; text printed to stdout is
  collected in a `List Warn` returned alongside the record on success.
-/

namespace RfPy

/-- The Python builtin sorted on a list of floats: the ascending stable sort. -/
def pySorted (l : List ℚ) : List ℚ := List.insertionSort (· ≤ ·) l

/-- Truthiness of an optional float exactly as Python evaluates it in an if
condition: `None` and `0.0` are falsy, every other float is truthy. -/
def pyTruthy : Option ℚ → Bool
  | none => false
  | some x => decide (x ≠ 0)

/-- Identities of the parser.error call sites of the module. -/
inductive Err where
  | badStartTime
  | badEndTime
  | badUserAuth
  | badPhaseCalc
  | distOutOfRange (lo hi : ℚ)
  | badArity (flag : String) (n : Nat)
  | badAlign
  | badMethod
  | strikeDipTogether
  | coordStartRequired
  | coordEndRequired
  | needCcpStep
  | linearAndPhase
  | figureWithoutStacking
  | badPhasePlot
  | nbazOrNslowNeeded
  | nbazAndNslowExclusive
  deriving DecidableEq, Repr

/-- Messages printed to stdout by the resolvers. -/
inductive Warn where
  | snrWindowClamped
  | azimConflict
  | figureNotProduced
  | trangeEcho (vals : List ℚ)
  deriving DecidableEq, Repr

/-- Construction of a UTCDateTime from a possibly empty string: an empty
string resolves to None, otherwise the external constructor must succeed. -/
def parseUTC (e : Err) (utc : String → Option ℚ) (s : String) :
    Except Err (Option ℚ) :=
  if s.length > 0 then
    match utc s with
    | some t => Except.ok (some t)
    | none => Except.error e
  else Except.ok none

/-- Success of the UTCDateTime construction step as a plain condition. -/
def utcOk (utc : String → Option ℚ) (s : String) : Bool :=
  decide (s.length = 0) || (utc s).isSome

/-- Arity check applied to a sorted comma-separated option: absent options
pass, supplied ones must have the declared number of entries after sorting. -/
def sortedArityOk (n : Nat) : Option (List ℚ) → Bool
  | none => true
  | some xs => decide ((pySorted xs).length = n)

/-- Resolution of a defaulted bound option: the default when absent, the
ascending sort of the parsed floats otherwise (the source assigns the sorted
list before checking its arity). -/
def resolveBound (dflt : List ℚ) : Option (List ℚ) → List ℚ
  | none => dflt
  | some xs => pySorted xs

/-- Resolution of an optional bound option with no default (pre-filt, the
plot bp and trange): None stays None, a supplied list is sorted. -/
def resolveOptBound : Option (List ℚ) → Option (List ℚ)
  | none => none
  | some xs => some (pySorted xs)

/-! ### The calc variant (get_calc_options, options.py lines 31-466) -/

/-- State of the calc options right after optparse (defaults as declared in
the add_option calls of get_calc_options). -/
structure CalcIn where
  stkeys : String := ""
  verb : Bool := false
  ovr : Bool := false
  Server : String := "IRIS"
  UserAuth : String := ""
  localdata : Option String := none
  ndval : Bool := false
  useNet : Bool := true
  startT : String := ""
  endT : String := ""
  reverse : Bool := false
  minmag : ℚ := 6
  maxmag : ℚ := 9
  phase : String := "P"
  mindist : Option ℚ := none
  maxdist : Option ℚ := none
  new_sampling_rate : ℚ := 10
  dts : ℚ := 150
  align : Option String := none
  vp : ℚ := 6
  vs : ℚ := 7/2
  dt_snr : ℚ := 30
  pre_filt : Option (List ℚ) := none
  fmin : ℚ := 1/20
  fmax : ℚ := 1
  method : String := "wiener"
  gfilt : Option ℚ := none
  wlevel : ℚ := 1/100
  deriving DecidableEq, Repr

/-- The record returned by get_calc_options on success.  ndval none models
the numpy nan fill value, startT and endT none model absent times. -/
structure CalcOut where
  stkeys : List String
  verb : Bool
  ovr : Bool
  Server : String
  UserAuth : List String
  localdata : List String
  ndval : Option ℚ
  useNet : Bool
  startT : Option ℚ
  endT : Option ℚ
  reverse : Bool
  minmag : ℚ
  maxmag : ℚ
  phase : String
  mindist : ℚ
  maxdist : ℚ
  new_sampling_rate : ℚ
  dts : ℚ
  align : String
  vp : ℚ
  vs : ℚ
  dt_snr : ℚ
  pre_filt : Option (List ℚ)
  fmin : ℚ
  fmax : ℚ
  method : String
  gfilt : Option ℚ
  wlevel : ℚ
  deriving DecidableEq, Repr

/-- Phase names accepted by get_calc_options. -/
def calcPhases : List String := ["P", "PP", "S", "SKS"]

/-- Canonical distance interval per phase.  The final branch corresponds to
the elif for SKS in the source; it is only reached for phase = SKS because
the membership check on calcPhases runs first. -/
def distRange (phase : String) : ℚ × ℚ :=
  if phase = "P" then (30, 100)
  else if phase = "PP" then (100, 180)
  else if phase = "S" then (55, 85)
  else (85, 115)

/-- The mindist value after the phase-dependent defaulting; the source tests
truthiness (if not opts.mindist), so None and 0.0 both take the default. -/
def calcMindist (o : CalcIn) : ℚ :=
  if pyTruthy o.mindist then o.mindist.getD 0 else (distRange o.phase).1

/-- The maxdist value after the phase-dependent defaulting. -/
def calcMaxdist (o : CalcIn) : ℚ :=
  if pyTruthy o.maxdist then o.maxdist.getD 0 else (distRange o.phase).2

/-- Station keys after the split on commas (an empty key string stays the
empty collection). -/
def resolveKeys (stkeys : String) : List String :=
  if stkeys.length > 0 then stkeys.splitOn "," else []

/-- The alignment key after defaulting (None becomes ZRT). -/
def resolveAlign : Option String → String
  | none => "ZRT"
  | some a => a

/-- Membership of the alignment key in the closed set, vacuous when absent. -/
def alignOk : Option String → Bool
  | none => true
  | some a => (["ZRT", "LQT", "PVH"] : List String).contains a

/-- The dt_snr value after the soft clamp against the data window. -/
def calcDtSnr (o : CalcIn) : ℚ :=
  if o.dt_snr > o.dts then o.dts - 10 else o.dt_snr

/-- Warnings printed by get_calc_options. -/
def calcWarns (o : CalcIn) : List Warn :=
  if o.dt_snr > o.dts then [Warn.snrWindowClamped] else []

/-- The record built by get_calc_options along its success path. -/
def calcBuild (utc : String → Option ℚ) (o : CalcIn) : CalcOut :=
  { stkeys := resolveKeys o.stkeys
    verb := o.verb
    ovr := o.ovr
    Server := o.Server
    UserAuth := if o.UserAuth.length ≠ 0 then o.UserAuth.splitOn ":" else []
    localdata := (o.localdata.map (fun s => s.splitOn ",")).getD []
    ndval := if o.ndval then some 0 else none
    useNet := o.useNet
    startT := if o.startT.length > 0 then utc o.startT else none
    endT := if o.endT.length > 0 then utc o.endT else none
    reverse := o.reverse
    minmag := o.minmag
    maxmag := o.maxmag
    phase := o.phase
    mindist := calcMindist o
    maxdist := calcMaxdist o
    new_sampling_rate := o.new_sampling_rate
    dts := o.dts
    align := resolveAlign o.align
    vp := o.vp
    vs := o.vs
    dt_snr := calcDtSnr o
    pre_filt := resolveOptBound o.pre_filt
    fmin := o.fmin
    fmax := o.fmax
    method := o.method
    gfilt := o.gfilt
    wlevel := o.wlevel }

/-- Validity of the user authentification string: either empty (no user and
password) or splitting on the colon yields exactly two parts. -/
def userAuthOk (ua : String) : Bool :=
  decide (ua.length = 0) || decide ((ua.splitOn ":").length = 2)

/-- Failure condition of the phase-dependent distance check: the source only
rejects a mindist below the canonical minimum or a maxdist above the
canonical maximum (after truthiness defaulting). -/
def distCheckFails (o : CalcIn) : Bool :=
  decide (calcMindist o < (distRange o.phase).1) ||
  decide (calcMaxdist o > (distRange o.phase).2)

/-- Deconvolution methods accepted by the calc and recalc variants. -/
def calcMethods : List String := ["wiener", "water", "multitaper"]

/-- Embedding of get_calc_options from the point after parse_args: the
checks appear in source order (start time, end time, user authentification,
phase membership, phase-dependent distance envelope, pre-filt arity,
alignment, SNR-window clamp, deconvolution method). -/
def get_calc_options (utc : String → Option ℚ) (o : CalcIn) :
    Except Err (CalcOut × List Warn) :=
  if utcOk utc o.startT = false then Except.error Err.badStartTime
  else if utcOk utc o.endT = false then Except.error Err.badEndTime
  else if userAuthOk o.UserAuth = false then Except.error Err.badUserAuth
  else if calcPhases.contains o.phase = false then Except.error Err.badPhaseCalc
  else if distCheckFails o = true then
    Except.error (Err.distOutOfRange (distRange o.phase).1 (distRange o.phase).2)
  else if sortedArityOk 2 o.pre_filt = false then
    Except.error (Err.badArity "--pre-filt" 2)
  else if alignOk o.align = false then Except.error Err.badAlign
  else if calcMethods.contains o.method = false then Except.error Err.badMethod
  else Except.ok (calcBuild utc o, calcWarns o)

/-- Success condition of get_calc_options as one conjunction. -/
def calcOk (utc : String → Option ℚ) (o : CalcIn) : Bool :=
  utcOk utc o.startT && utcOk utc o.endT && userAuthOk o.UserAuth &&
  calcPhases.contains o.phase && !(distCheckFails o) &&
  sortedArityOk 2 o.pre_filt && alignOk o.align &&
  calcMethods.contains o.method

/-! ### The recalc variant (get_recalc_options, options.py lines 469-660) -/

/-- Phase names accepted by the recalc and plot variants. -/
def extPhases : List String := ["P", "PP", "allP", "S", "SKS", "allS"]

/-- Expansion of an aggregate phase request into the list of concrete
phases handed to downstream processing. -/
def resolveListphase (phase : String) : List String :=
  if phase = "allP" then ["P", "PP"]
  else if phase = "allS" then ["S", "SKS"]
  else [phase]

/-- State of the recalc options right after optparse. -/
structure RecalcIn where
  stkeys : String := ""
  verb : Bool := false
  phase : String := "allP"
  align : Option String := none
  vp : ℚ := 6
  vs : ℚ := 7/2
  dt_snr : ℚ := 30
  pre_filt : Option (List ℚ) := none
  fmin : ℚ := 1/20
  fmax : ℚ := 1
  method : String := "wiener"
  gfilt : Option ℚ := none
  wlevel : ℚ := 1/100
  deriving DecidableEq, Repr

/-- The record returned by get_recalc_options on success. -/
structure RecalcOut where
  stkeys : List String
  verb : Bool
  phase : String
  listphase : List String
  align : String
  vp : ℚ
  vs : ℚ
  dt_snr : ℚ
  pre_filt : Option (List ℚ)
  fmin : ℚ
  fmax : ℚ
  method : String
  gfilt : Option ℚ
  wlevel : ℚ
  deriving DecidableEq, Repr

/-- The record built by get_recalc_options along its success path. -/
def recalcBuild (o : RecalcIn) : RecalcOut :=
  { stkeys := resolveKeys o.stkeys
    verb := o.verb
    phase := o.phase
    listphase := resolveListphase o.phase
    align := resolveAlign o.align
    vp := o.vp
    vs := o.vs
    dt_snr := o.dt_snr
    pre_filt := resolveOptBound o.pre_filt
    fmin := o.fmin
    fmax := o.fmax
    method := o.method
    gfilt := o.gfilt
    wlevel := o.wlevel }

/-- Embedding of get_recalc_options from the point after parse_args: the
checks appear in source order (phase membership over the extended set,
alignment, deconvolution method, pre-filt arity). -/
def get_recalc_options (o : RecalcIn) : Except Err (RecalcOut × List Warn) :=
  if extPhases.contains o.phase = false then Except.error Err.badPhasePlot
  else if alignOk o.align = false then Except.error Err.badAlign
  else if calcMethods.contains o.method = false then Except.error Err.badMethod
  else if sortedArityOk 2 o.pre_filt = false then
    Except.error (Err.badArity "--pre-filt" 2)
  else Except.ok (recalcBuild o, [])

/-- Success condition of get_recalc_options as one conjunction. -/
def recalcOk (o : RecalcIn) : Bool :=
  extPhases.contains o.phase && alignOk o.align &&
  calcMethods.contains o.method && sortedArityOk 2 o.pre_filt

/-! ### The H-k variant (get_hk_options, options.py lines 663-1072) -/

/-- State of the H-k options right after optparse. -/
structure HkIn where
  stkeys : String := ""
  verb : Bool := false
  ovr : Bool := false
  startT : String := ""
  endT : String := ""
  bp : Option (List ℚ) := none
  nbaz : Int := 36
  nslow : Int := 40
  snr : ℚ := -9999
  snrh : ℚ := -9999
  cc : ℚ := -1
  no_outl : Bool := false
  slowbound : Option (List ℚ) := none
  bazbound : Option (List ℚ) := none
  copy : Bool := false
  bp_copy : Option (List ℚ) := none
  hbound : Option (List ℚ) := none
  dh : ℚ := 1/2
  kbound : Option (List ℚ) := none
  dk : ℚ := 1/50
  weights : Option (List ℚ) := none
  typ : String := "sum"
  save : Bool := false
  vp : ℚ := 6
  strike : Option ℚ := none
  dip : Option ℚ := none
  plot : Bool := false
  save_plot : Bool := false
  title : String := ""
  form : String := "png"
  deriving DecidableEq, Repr

/-- The record returned by get_hk_options on success.  nbaz becomes None
when neither strike nor dip was given; bp_copy is only parsed when copy is
set and otherwise keeps its raw value. -/
structure HkOut where
  stkeys : List String
  verb : Bool
  ovr : Bool
  startT : Option ℚ
  endT : Option ℚ
  calc_dip : Bool
  nbaz : Option Int
  strike : Option ℚ
  dip : Option ℚ
  bp : List ℚ
  nslow : Int
  snr : ℚ
  snrh : ℚ
  cc : ℚ
  no_outl : Bool
  slowbound : List ℚ
  bazbound : List ℚ
  copy : Bool
  bp_copy : Option (List ℚ)
  hbound : List ℚ
  dh : ℚ
  kbound : List ℚ
  dk : ℚ
  weights : List ℚ
  typ : String
  save : Bool
  vp : ℚ
  plot : Bool
  save_plot : Bool
  title : String
  form : String
  deriving DecidableEq, Repr

/-- Mutual-presence state of strike and dip: both absent (no dip
calculation, nbaz reset to None), both present (dip calculation), or the
mixed case which is rejected. -/
def strikeDipOk (o : HkIn) : Bool :=
  (o.strike.isNone && o.dip.isNone) || (o.strike.isSome && o.dip.isSome)

/-- The arity checks of the H-k variant, in source order; the bp_copy check
only runs when copy is set. -/
def hkListsOk (o : HkIn) : Bool :=
  sortedArityOk 2 o.bp && sortedArityOk 2 o.slowbound &&
  sortedArityOk 2 o.bazbound &&
  !(o.copy && !(sortedArityOk 2 o.bp_copy)) &&
  sortedArityOk 2 o.hbound && sortedArityOk 2 o.kbound &&
  sortedArityOk 3 o.weights

/-- The record built by get_hk_options along its success path. -/
def hkBuild (utc : String → Option ℚ) (o : HkIn) : HkOut :=
  { stkeys := resolveKeys o.stkeys
    verb := o.verb
    ovr := o.ovr
    startT := if o.startT.length > 0 then utc o.startT else none
    endT := if o.endT.length > 0 then utc o.endT else none
    calc_dip := !(o.strike.isNone && o.dip.isNone)
    nbaz := if o.strike.isNone && o.dip.isNone then none else some o.nbaz
    strike := o.strike
    dip := o.dip
    bp := resolveBound [1/20, 1/2] o.bp
    nslow := o.nslow
    snr := o.snr
    snrh := o.snrh
    cc := o.cc
    no_outl := o.no_outl
    slowbound := resolveBound [1/25, 2/25] o.slowbound
    bazbound := resolveBound [0, 360] o.bazbound
    copy := o.copy
    bp_copy := if o.copy then some (resolveBound [1/20, 7/20] o.bp_copy)
      else o.bp_copy
    hbound := resolveBound [20, 50] o.hbound
    dh := o.dh
    kbound := resolveBound [39/25, 21/10] o.kbound
    dk := o.dk
    weights := resolveBound [1/2, 2, -1] o.weights
    typ := o.typ
    save := o.save
    vp := o.vp
    plot := o.plot
    save_plot := o.save_plot
    title := o.title
    form := o.form }

/-- Embedding of get_hk_options from the point after parse_args: the checks
appear in source order (start time, end time, strike and dip supplied
together, then the arity checks on bp, slowbound, bazbound, bp_copy when
copy is set, hbound, kbound and weights).  No message is printed. -/
def get_hk_options (utc : String → Option ℚ) (o : HkIn) :
    Except Err (HkOut × List Warn) :=
  if utcOk utc o.startT = false then Except.error Err.badStartTime
  else if utcOk utc o.endT = false then Except.error Err.badEndTime
  else if strikeDipOk o = false then Except.error Err.strikeDipTogether
  else if sortedArityOk 2 o.bp = false then Except.error (Err.badArity "--bp" 2)
  else if sortedArityOk 2 o.slowbound = false then
    Except.error (Err.badArity "--slowbound" 2)
  else if sortedArityOk 2 o.bazbound = false then
    Except.error (Err.badArity "--bazbound" 2)
  else if (o.copy && !(sortedArityOk 2 o.bp_copy)) = true then
    Except.error (Err.badArity "--bp_copy" 2)
  else if sortedArityOk 2 o.hbound = false then
    Except.error (Err.badArity "--hbound" 2)
  else if sortedArityOk 2 o.kbound = false then
    Except.error (Err.badArity "--kbound" 2)
  else if sortedArityOk 3 o.weights = false then
    Except.error (Err.badArity "--weights" 3)
  else Except.ok (hkBuild utc o, [])

/-- Success condition of get_hk_options as one conjunction. -/
def hkOk (utc : String → Option ℚ) (o : HkIn) : Bool :=
  utcOk utc o.startT && utcOk utc o.endT && strikeDipOk o && hkListsOk o

/-! ### The harmonics variant (get_harmonics_options, options.py 1075-1352) -/

/-- State of the harmonics options right after optparse. -/
structure HarmIn where
  stkeys : String := ""
  verb : Bool := false
  ovr : Bool := false
  startT : String := ""
  endT : String := ""
  bp : Option (List ℚ) := none
  nbin : Option Int := none
  snr : ℚ := -9999
  snrh : ℚ := -9999
  cc : ℚ := -1
  no_outl : Bool := false
  azim : Option ℚ := none
  find_azim : Bool := false
  trange : Option (List ℚ) := none
  save : Bool := false
  plot : Bool := false
  ymax : ℚ := 30
  scale : ℚ := 30
  save_plot : Bool := false
  title : String := ""
  form : String := "png"
  deriving DecidableEq, Repr

/-- The record returned by get_harmonics_options on success. -/
structure HarmOut where
  stkeys : List String
  verb : Bool
  ovr : Bool
  startT : Option ℚ
  endT : Option ℚ
  bp : List ℚ
  nbin : Option Int
  snr : ℚ
  snrh : ℚ
  cc : ℚ
  no_outl : Bool
  azim : Option ℚ
  find_azim : Bool
  trange : Option (List ℚ)
  save : Bool
  plot : Bool
  ymax : ℚ
  scale : ℚ
  save_plot : Bool
  title : String
  form : String
  deriving DecidableEq, Repr

/-- The find_azim flag after conflict resolution: supplying azim while
find-azim is set downgrades find-azim to False with a warning. -/
def harmFind (o : HarmIn) : Bool :=
  if o.azim.isSome && o.find_azim then false else o.find_azim

/-- The azim value after defaulting: it is set to 0 exactly when neither
azim nor find-azim was given, and kept as supplied otherwise. -/
def harmAzim (o : HarmIn) : Option ℚ :=
  if o.azim.isNone && !o.find_azim then some 0 else o.azim

/-- The trange value after resolution: it is only parsed (with default
[0, 10]) when the downgraded find_azim flag is still set. -/
def harmTrange (o : HarmIn) : Option (List ℚ) :=
  if harmFind o then
    some (match o.trange with
      | none => [0, 10]
      | some xs => pySorted xs)
  else o.trange

/-- Messages printed by get_harmonics_options: the conflict warning, and
the echo of the split trange values (a bare print in the source). -/
def harmWarns (o : HarmIn) : List Warn :=
  (if o.azim.isSome && o.find_azim then [Warn.azimConflict] else []) ++
  (if harmFind o then
    (match o.trange with
      | some xs => [Warn.trangeEcho xs]
      | none => [])
  else [])

/-- The record built by get_harmonics_options along its success path. -/
def harmBuild (utc : String → Option ℚ) (o : HarmIn) : HarmOut :=
  { stkeys := resolveKeys o.stkeys
    verb := o.verb
    ovr := o.ovr
    startT := if o.startT.length > 0 then utc o.startT else none
    endT := if o.endT.length > 0 then utc o.endT else none
    bp := resolveBound [1/20, 1/2] o.bp
    nbin := o.nbin
    snr := o.snr
    snrh := o.snrh
    cc := o.cc
    no_outl := o.no_outl
    azim := harmAzim o
    find_azim := harmFind o
    trange := harmTrange o
    save := o.save
    plot := o.plot
    ymax := o.ymax
    scale := o.scale
    save_plot := o.save_plot
    title := o.title
    form := o.form }

/-- Embedding of get_harmonics_options from the point after parse_args:
start time, end time, bp arity, then the azim conflict downgrade and the
trange arity check which only runs when find_azim survives. -/
def get_harmonics_options (utc : String → Option ℚ) (o : HarmIn) :
    Except Err (HarmOut × List Warn) :=
  if utcOk utc o.startT = false then Except.error Err.badStartTime
  else if utcOk utc o.endT = false then Except.error Err.badEndTime
  else if sortedArityOk 2 o.bp = false then Except.error (Err.badArity "--bp" 2)
  else if (harmFind o && !(sortedArityOk 2 o.trange)) = true then
    Except.error (Err.badArity "--trange" 2)
  else Except.ok (harmBuild utc o, harmWarns o)

/-- Success condition of get_harmonics_options as one conjunction. -/
def harmOk (utc : String → Option ℚ) (o : HarmIn) : Bool :=
  utcOk utc o.startT && utcOk utc o.endT && sortedArityOk 2 o.bp &&
  !(harmFind o && !(sortedArityOk 2 o.trange))

/-! ### The CCP variant (get_ccp_options, options.py lines 1355-1698) -/

/-- State of the CCP options right after optparse. -/
structure CcpIn where
  stkeys : String := ""
  verb : Bool := false
  ovr : Bool := false
  coord_start : Option (List ℚ) := none
  coord_end : Option (List ℚ) := none
  dz : ℚ := 1
  dx : ℚ := 5/2
  snr : ℚ := -9999
  snrh : ℚ := -9999
  cc : ℚ := -1
  no_outl : Bool := false
  f1 : ℚ := 1/20
  f2ps : ℚ := 3/4
  f2pps : ℚ := 9/25
  f2pss : ℚ := 3/10
  nbaz : Int := 36
  nslow : Int := 40
  wlen : ℚ := 35
  load : Bool := false
  prep : Bool := false
  prestack : Bool := false
  ccp : Bool := false
  gccp : Bool := false
  linear : Bool := false
  phase : Bool := false
  ccp_figure : Bool := false
  cbound : Option ℚ := none
  save_figure : Bool := false
  title : String := ""
  fmt : String := "png"
  deriving DecidableEq, Repr

/-- The record returned by get_ccp_options on success. -/
structure CcpOut where
  stkeys : List String
  verb : Bool
  ovr : Bool
  coord_start : Option (List ℚ)
  coord_end : Option (List ℚ)
  dz : ℚ
  dx : ℚ
  snr : ℚ
  snrh : ℚ
  cc : ℚ
  no_outl : Bool
  f1 : ℚ
  f2ps : ℚ
  f2pps : ℚ
  f2pss : ℚ
  nbaz : Int
  nslow : Int
  wlen : ℚ
  load : Bool
  prep : Bool
  prestack : Bool
  ccp : Bool
  gccp : Bool
  linear : Bool
  phase : Bool
  ccp_figure : Bool
  cbound : Option ℚ
  save_figure : Bool
  title : String
  fmt : String
  deriving DecidableEq, Repr

/-- Arity of a coordinate pair, which the source converts without sorting. -/
def rawArityOk (n : Nat) : Option (List ℚ) → Bool
  | none => true
  | some xs => decide (xs.length = n)

/-- The linear flag after defaulting: ccp stacking with neither weighting
flag selects the linear stack. -/
def ccpLinear (o : CcpIn) : Bool :=
  if o.ccp && !o.linear && !o.phase then true else o.linear

/-- The phase flag after defaulting: gccp stacking with neither weighting
flag (after the linear defaulting ran) selects the phase-weighted stack. -/
def ccpPhase (o : CcpIn) : Bool :=
  if o.gccp && !(ccpLinear o) && !o.phase then true else o.phase

/-- The colour bound after defaulting; the source tests truthiness, so an
explicit 0.0 is replaced like an absent value. -/
def ccpCbound (o : CcpIn) : Option ℚ :=
  if !(pyTruthy o.cbound) && o.gccp then some (3/200)
  else if !(pyTruthy o.cbound) && o.ccp then some (1/20)
  else o.cbound

/-- Messages printed by get_ccp_options: the figure warning fires when a
stacking step is requested with figure settings but without the figure
flag (fmt is a non-empty string by default, hence truthy). -/
def ccpWarns (o : CcpIn) : List Warn :=
  if (o.ccp || o.gccp) &&
      (o.save_figure || pyTruthy o.cbound || decide (o.fmt.length > 0)) &&
      !o.ccp_figure then
    [Warn.figureNotProduced]
  else []

/-- The record built by get_ccp_options along its success path. -/
def ccpBuild (o : CcpIn) : CcpOut :=
  { stkeys := resolveKeys o.stkeys
    verb := o.verb
    ovr := o.ovr
    coord_start := o.coord_start
    coord_end := o.coord_end
    dz := o.dz
    dx := o.dx
    snr := o.snr
    snrh := o.snrh
    cc := o.cc
    no_outl := o.no_outl
    f1 := o.f1
    f2ps := o.f2ps
    f2pps := o.f2pps
    f2pss := o.f2pss
    nbaz := o.nbaz
    nslow := o.nslow
    wlen := o.wlen
    load := o.load
    prep := o.prep
    prestack := o.prestack
    ccp := o.ccp
    gccp := o.gccp
    linear := ccpLinear o
    phase := ccpPhase o
    ccp_figure := o.ccp_figure
    cbound := ccpCbound o
    save_figure := o.save_figure
    title := o.title
    fmt := o.fmt }

/-- Embedding of get_ccp_options from the point after parse_args: the
coordinate requirements apply only when the load step is requested, then
at least one stacking step must be selected, linear and phase exclude each
other, and a figure request needs a stacking type. -/
def get_ccp_options (o : CcpIn) : Except Err (CcpOut × List Warn) :=
  if (o.load && o.coord_start.isNone) = true then
    Except.error Err.coordStartRequired
  else if (o.load && !(rawArityOk 2 o.coord_start)) = true then
    Except.error (Err.badArity "--start" 2)
  else if (o.load && o.coord_end.isNone) = true then
    Except.error Err.coordEndRequired
  else if (o.load && !(rawArityOk 2 o.coord_end)) = true then
    Except.error (Err.badArity "--end" 2)
  else if (o.load || o.prep || o.prestack || o.ccp || o.gccp) = false then
    Except.error Err.needCcpStep
  else if (o.linear && o.phase) = true then Except.error Err.linearAndPhase
  else if (o.ccp_figure && !(o.ccp || o.gccp)) = true then
    Except.error Err.figureWithoutStacking
  else Except.ok (ccpBuild o, ccpWarns o)

/-- Success condition of get_ccp_options as one conjunction. -/
def ccpOk (o : CcpIn) : Bool :=
  !(o.load && o.coord_start.isNone) &&
  !(o.load && !(rawArityOk 2 o.coord_start)) &&
  !(o.load && o.coord_end.isNone) &&
  !(o.load && !(rawArityOk 2 o.coord_end)) &&
  (o.load || o.prep || o.prestack || o.ccp || o.gccp) &&
  !(o.linear && o.phase) && !(o.ccp_figure && !(o.ccp || o.gccp))

/-! ### The plot variant (get_plot_options, options.py lines 1701-1981) -/

/-- State of the plot options right after optparse; note that the raw
default for phase is None even though the help text documents allP. -/
structure PlotIn where
  stkeys : String := ""
  verb : Bool := false
  ovr : Bool := false
  snr : ℚ := -9999
  snrh : ℚ := -9999
  cc : ℚ := -1
  no_outl : Bool := false
  binlim : ℚ := 0
  bp : Option (List ℚ) := none
  pws : Bool := false
  nbaz : Option Int := none
  nslow : Option Int := none
  slowbound : Option (List ℚ) := none
  bazbound : Option (List ℚ) := none
  phase : Option String := none
  scale : Option ℚ := none
  norm : Bool := false
  trange : Option (List ℚ) := none
  stacked : Bool := false
  saveplot : Bool := false
  titleplot : String := ""
  form : String := "png"
  deriving DecidableEq, Repr

/-- The record returned by get_plot_options on success; tmin and tmax are
only assigned when trange was absent. -/
structure PlotOut where
  stkeys : List String
  verb : Bool
  ovr : Bool
  snr : ℚ
  snrh : ℚ
  cc : ℚ
  no_outl : Bool
  binlim : ℚ
  bp : Option (List ℚ)
  pws : Bool
  nbaz : Option Int
  nslow : Option Int
  slowbound : List ℚ
  bazbound : List ℚ
  phase : Option String
  listphase : List String
  scale : Option ℚ
  norm : Bool
  trange : Option (List ℚ)
  tmin : Option ℚ
  tmax : Option ℚ
  stacked : Bool
  saveplot : Bool
  titleplot : String
  form : String
  deriving DecidableEq, Repr

/-- Membership of the plot phase in the closed extended set; the raw
default None is not a member, so an absent phase always fails. -/
def plotPhaseOk (o : PlotIn) : Bool :=
  match o.phase with
  | some p => extPhases.contains p
  | none => false

/-- The record built by get_plot_options along its success path. -/
def plotBuild (o : PlotIn) : PlotOut :=
  { stkeys := resolveKeys o.stkeys
    verb := o.verb
    ovr := o.ovr
    snr := o.snr
    snrh := o.snrh
    cc := o.cc
    no_outl := o.no_outl
    binlim := o.binlim
    bp := resolveOptBound o.bp
    pws := o.pws
    nbaz := o.nbaz
    nslow := o.nslow
    slowbound := resolveBound [1/25, 2/25] o.slowbound
    bazbound := resolveBound [0, 360] o.bazbound
    phase := o.phase
    listphase := match o.phase with
      | some p => resolveListphase p
      | none => []
    scale := o.scale
    norm := o.norm
    trange := resolveOptBound o.trange
    tmin := if o.trange.isNone then some 0 else none
    tmax := if o.trange.isNone then some 30 else none
    stacked := o.stacked
    saveplot := o.saveplot
    titleplot := o.titleplot
    form := o.form }

/-- Embedding of get_plot_options from the point after parse_args: the
checks appear in source order (slowbound arity, bazbound arity, phase
membership, bp arity, trange arity, then the requirement that exactly one
of nbaz and nslow is given). -/
def get_plot_options (o : PlotIn) : Except Err (PlotOut × List Warn) :=
  if sortedArityOk 2 o.slowbound = false then
    Except.error (Err.badArity "--slowbound" 2)
  else if sortedArityOk 2 o.bazbound = false then
    Except.error (Err.badArity "--bazbound" 2)
  else if plotPhaseOk o = false then Except.error Err.badPhasePlot
  else if sortedArityOk 2 o.bp = false then Except.error (Err.badArity "--bp" 2)
  else if sortedArityOk 2 o.trange = false then
    Except.error (Err.badArity "--trange" 2)
  else if (o.nbaz.isNone && o.nslow.isNone) = true then
    Except.error Err.nbazOrNslowNeeded
  else if (o.nbaz.isSome && o.nslow.isSome) = true then
    Except.error Err.nbazAndNslowExclusive
  else Except.ok (plotBuild o, [])

/-- Success condition of get_plot_options as one conjunction. -/
def plotOk (o : PlotIn) : Bool :=
  sortedArityOk 2 o.slowbound && sortedArityOk 2 o.bazbound &&
  plotPhaseOk o && sortedArityOk 2 o.bp && sortedArityOk 2 o.trange &&
  !(o.nbaz.isNone && o.nslow.isNone) && !(o.nbaz.isSome && o.nslow.isSome)

/-! ### Concrete inputs used to witness the claims -/

/-- A UTCDateTime constructor that accepts nothing; the witness inputs all
leave the time strings empty, so it is never consulted. -/
def u0 : String → Option ℚ := fun _ => none

/-- Calc input with an inverted distance pair inside the P envelope. -/
def calcIn9050 : CalcIn := { mindist := some 90, maxdist := some 50 }

/-- The resolved record for calcIn9050 (resolution succeeds). -/
def calc9050res : CalcOut × List Warn :=
  ((get_calc_options u0 calcIn9050).toOption).get (by decide)

/-- Calc input whose pair (150, 100) is not contained in the P envelope. -/
def calcIn150 : CalcIn := { mindist := some 150, maxdist := some 100 }

/-- Calc input with mindist 20, below the canonical P minimum of 30. -/
def calcIn20 : CalcIn := { mindist := some 20 }

/-- Calc input whose SNR window exceeds the data window. -/
def calcIn40 : CalcIn := { dt_snr := 40, dts := 30 }

/-- The resolved record for calcIn40 (resolution succeeds with a warning). -/
def calc40res : CalcOut × List Warn :=
  ((get_calc_options u0 calcIn40).toOption).get (by decide)

/-- Calc input with every default (phase P, no explicit bounds). -/
def calcInP : CalcIn := {}

/-- The resolved record for calcInP. -/
def calcPres : CalcOut × List Warn :=
  ((get_calc_options u0 calcInP).toOption).get (by decide)

/-- Calc input selecting phase SKS with no explicit bounds. -/
def calcInSKS : CalcIn := { phase := "SKS" }

/-- The resolved record for calcInSKS. -/
def calcSKSres : CalcOut × List Warn :=
  ((get_calc_options u0 calcInSKS).toOption).get (by decide)

/-- H-k input with a descending bp pair and an unsorted weight triple. -/
def hkIn1 : HkIn := { bp := some [5, 1], weights := some [3, 1, 2] }

/-- The resolved record for hkIn1. -/
def hk1res : HkOut × List Warn :=
  ((get_hk_options u0 hkIn1).toOption).get (by decide)

/-- Harmonics input supplying azim while find-azim is set. -/
def harmIn1 : HarmIn := { azim := some 10, find_azim := true }

/-- The resolved record for harmIn1. -/
def harm1res : HarmOut × List Warn :=
  ((get_harmonics_options u0 harmIn1).toOption).get (by decide)

/-- Plot input with both nbaz and nslow set (and a valid phase). -/
def plotInBoth : PlotIn := { nbaz := some 36, nslow := some 40, phase := some "P" }

/-- Plot input with only nbaz set and the raw phase default None. -/
def plotInNbazOnly : PlotIn := { nbaz := some 36 }

/-- Plot input with only nbaz set and a valid phase. -/
def plotInOne : PlotIn := { nbaz := some 36, phase := some "allP" }

/-- Default H-k input (no option supplied). -/
def hkInDefault : HkIn := {}

/-- The resolved record for hkInDefault. -/
def hkDefRes : HkOut × List Warn :=
  ((get_hk_options u0 hkInDefault).toOption).get (by decide)

/-! ### Theorems -/

theorem isOk_parseUTC (e : Err) (utc : String → Option ℚ) (s : String) :
    (parseUTC e utc s).isOk = utcOk utc s := by
  unfold parseUTC utcOk
  by_cases h : s.length > 0
  · cases hu : utc s <;>
      simp [h, hu, Nat.pos_iff_ne_zero.mp h, Except.isOk, Except.toBool]
  · simp [h, Nat.eq_zero_of_not_pos h, Except.isOk, Except.toBool]

theorem parseUTC_eq_ok (e : Err) (utc : String → Option ℚ) (s : String)
    (t : Option ℚ) :
    parseUTC e utc s = Except.ok t →
      t = if s.length > 0 then utc s else none := by
  unfold parseUTC
  by_cases h : s.length > 0
  · cases hu : utc s <;> intro hh <;> simp_all
  · intro hh
    simp_all

theorem sorted_pySorted (l : List ℚ) : (pySorted l).Sorted (· ≤ ·) :=
  List.sorted_insertionSort _ l

theorem perm_pySorted (l : List ℚ) : (pySorted l).Perm l :=
  List.perm_insertionSort _ l

theorem length_pySorted (l : List ℚ) : (pySorted l).length = l.length :=
  List.length_insertionSort _ l

theorem pySorted_pair_gt {a b : ℚ} (h : b < a) :
    pySorted [a, b] = [min a b, max a b] := by
  have hab : ¬ a ≤ b := not_le.mpr h
  simp [pySorted, List.insertionSort, List.orderedInsert, hab,
    min_eq_right h.le, max_eq_left h.le]

theorem resolveBound_sorted (dflt : List ℚ) (h : dflt.Sorted (· ≤ ·))
    (ob : Option (List ℚ)) : (resolveBound dflt ob).Sorted (· ≤ ·) := by
  cases ob
  · exact h
  · exact sorted_pySorted _

theorem resolveBound_length (dflt : List ℚ) (n : Nat) (hd : dflt.length = n)
    (ob : Option (List ℚ)) (hok : sortedArityOk n ob = true) :
    (resolveBound dflt ob).length = n := by
  cases ob
  · exact hd
  · simpa [sortedArityOk, resolveBound] using hok

theorem isOk_get_calc (utc : String → Option ℚ) (o : CalcIn) :
    (get_calc_options utc o).isOk = calcOk utc o := by
  unfold get_calc_options calcOk
  repeat' split
  all_goals simp_all [Except.isOk, Except.toBool]

theorem get_calc_ok_inv (utc : String → Option ℚ) (o : CalcIn)
    (r : CalcOut × List Warn) (h : get_calc_options utc o = Except.ok r) :
    r = (calcBuild utc o, calcWarns o) := by
  unfold get_calc_options at h
  repeat' split at h
  all_goals first
    | exact Except.noConfusion h
    | exact (Except.ok.inj h).symm

theorem isOk_get_recalc (o : RecalcIn) :
    (get_recalc_options o).isOk = recalcOk o := by
  unfold get_recalc_options recalcOk
  repeat' split
  all_goals simp_all [Except.isOk, Except.toBool]

theorem get_recalc_ok_inv (o : RecalcIn) (r : RecalcOut × List Warn)
    (h : get_recalc_options o = Except.ok r) : r = (recalcBuild o, []) := by
  unfold get_recalc_options at h
  repeat' split at h
  all_goals first
    | exact Except.noConfusion h
    | exact (Except.ok.inj h).symm

theorem isOk_get_hk (utc : String → Option ℚ) (o : HkIn) :
    (get_hk_options utc o).isOk = hkOk utc o := by
  unfold get_hk_options hkOk hkListsOk
  repeat' split
  all_goals simp_all only [Except.isOk, Except.toBool, Bool.not_eq_true,
    Bool.not_eq_false, Bool.not_true, Bool.not_false, Bool.and_true,
    Bool.true_and, Bool.and_false, Bool.false_and, Bool.or_true, Bool.true_or,
    Bool.or_false, Bool.false_or]

theorem get_hk_ok_inv (utc : String → Option ℚ) (o : HkIn)
    (r : HkOut × List Warn) (h : get_hk_options utc o = Except.ok r) :
    r = (hkBuild utc o, []) := by
  unfold get_hk_options at h
  repeat' split at h
  all_goals first
    | exact Except.noConfusion h
    | exact (Except.ok.inj h).symm

theorem isOk_get_harmonics (utc : String → Option ℚ) (o : HarmIn) :
    (get_harmonics_options utc o).isOk = harmOk utc o := by
  unfold get_harmonics_options harmOk
  repeat' split
  all_goals simp_all only [Except.isOk, Except.toBool, Bool.not_eq_true,
    Bool.not_eq_false, Bool.not_true, Bool.not_false, Bool.and_true,
    Bool.true_and, Bool.and_false, Bool.false_and, Bool.or_true, Bool.true_or,
    Bool.or_false, Bool.false_or]

theorem get_harmonics_ok_inv (utc : String → Option ℚ) (o : HarmIn)
    (r : HarmOut × List Warn) (h : get_harmonics_options utc o = Except.ok r) :
    r = (harmBuild utc o, harmWarns o) := by
  unfold get_harmonics_options at h
  repeat' split at h
  all_goals first
    | exact Except.noConfusion h
    | exact (Except.ok.inj h).symm

theorem isOk_get_ccp (o : CcpIn) : (get_ccp_options o).isOk = ccpOk o := by
  unfold get_ccp_options ccpOk
  repeat' split
  all_goals simp_all only [Except.isOk, Except.toBool, Bool.not_eq_true,
    Bool.not_eq_false, Bool.not_true, Bool.not_false, Bool.and_true,
    Bool.true_and, Bool.and_false, Bool.false_and, Bool.or_true, Bool.true_or,
    Bool.or_false, Bool.false_or]

theorem get_ccp_ok_inv (o : CcpIn) (r : CcpOut × List Warn)
    (h : get_ccp_options o = Except.ok r) : r = (ccpBuild o, ccpWarns o) := by
  unfold get_ccp_options at h
  repeat' split at h
  all_goals first
    | exact Except.noConfusion h
    | exact (Except.ok.inj h).symm

theorem isOk_get_plot (o : PlotIn) : (get_plot_options o).isOk = plotOk o := by
  unfold get_plot_options plotOk
  repeat' split
  all_goals simp_all only [Except.isOk, Except.toBool, Bool.not_eq_true,
    Bool.not_eq_false, Bool.not_true, Bool.not_false, Bool.and_true,
    Bool.true_and, Bool.and_false, Bool.false_and, Bool.or_true, Bool.true_or,
    Bool.or_false, Bool.false_or]

theorem get_plot_ok_inv (o : PlotIn) (r : PlotOut × List Warn)
    (h : get_plot_options o = Except.ok r) : r = (plotBuild o, []) := by
  unfold get_plot_options at h
  repeat' split at h
  all_goals first
    | exact Except.noConfusion h
    | exact (Except.ok.inj h).symm

theorem resolveBound_prop (dflt : List ℚ) (n : Nat)
    (hs : dflt.Sorted (· ≤ ·)) (hl : dflt.length = n)
    (ob : Option (List ℚ)) (h : sortedArityOk n ob = true) :
    (resolveBound dflt ob).Sorted (· ≤ ·) ∧ (resolveBound dflt ob).length = n :=
  ⟨resolveBound_sorted dflt hs ob, resolveBound_length dflt n hl ob h⟩

theorem resolveOptBound_prop (n : Nat) (ob : Option (List ℚ)) (l : List ℚ)
    (harit : sortedArityOk n ob = true) (h : resolveOptBound ob = some l) :
    l.Sorted (· ≤ ·) ∧ l.length = n := by
  cases ob with
  | none => exact absurd h (by simp [resolveOptBound])
  | some xs =>
    have hxl : l = pySorted xs := by simpa [resolveOptBound] using h.symm
    subst hxl
    exact ⟨sorted_pySorted xs, by simpa [sortedArityOk] using harit⟩

/-- C8: in the CCP variant, an invocation in which none of the step flags
load, prep, prestack, ccp, gccp is set fails with the usage error demanding
at least one CCP setting, whatever the other options hold. -/
theorem ccp_requires_step_flag (o : CcpIn) (h1 : o.load = false)
    (h2 : o.prep = false) (h3 : o.prestack = false) (h4 : o.ccp = false)
    (h5 : o.gccp = false) :
    get_ccp_options o = Except.error Err.needCcpStep := by
  unfold get_ccp_options
  simp [h1, h2, h3, h4, h5]

theorem ccp_requires_step_flag_witness :
    get_ccp_options {} = Except.error Err.needCcpStep :=
  ccp_requires_step_flag {} rfl rfl rfl rfl rfl

/-- C5: in the plot variant, an invocation without an explicit phase never
resolves, because the raw default None is not a member of the closed phase
set; conversely a successful resolution always carries an explicit phase
from that set. -/
theorem plot_phase_required :
    (∀ o : PlotIn, o.phase = none → ∀ r, get_plot_options o ≠ Except.ok r)
    ∧ ∀ o : PlotIn, (get_plot_options o).isOk = true →
        ∃ p, o.phase = some p ∧ extPhases.contains p = true := by
  constructor
  · intro o hp r hok
    have h := isOk_get_plot o
    rw [hok] at h
    simp only [Except.isOk, Except.toBool] at h
    rw [plotOk] at h
    simp [plotPhaseOk, hp] at h
  · intro o hok
    rw [isOk_get_plot] at hok
    rw [plotOk] at hok
    simp only [Bool.and_eq_true] at hok
    have hph := hok.1.1.1.1.2
    unfold plotPhaseOk at hph
    cases hp : o.phase with
    | none => rw [hp] at hph; exact Bool.noConfusion hph
    | some p => rw [hp] at hph; exact ⟨p, rfl, hph⟩

theorem plot_phase_required_witness :
    get_plot_options {} ≠ Except.ok (plotBuild {}, []) :=
  plot_phase_required.1 {} rfl (plotBuild {}, [])

/-- C9: in the calc variant, when the phase is P and neither distance flag
was supplied, the resolved bounds are (30, 100); for SKS with no explicit
bounds they are (85, 115). -/
theorem calc_phase_default_distances :
    (∀ (utc : String → Option ℚ) (o : CalcIn) (cfg : CalcOut) (w : List Warn),
      o.phase = "P" → o.mindist = none → o.maxdist = none →
      get_calc_options utc o = Except.ok (cfg, w) →
      cfg.mindist = 30 ∧ cfg.maxdist = 100)
    ∧ (∀ (utc : String → Option ℚ) (o : CalcIn) (cfg : CalcOut) (w : List Warn),
      o.phase = "SKS" → o.mindist = none → o.maxdist = none →
      get_calc_options utc o = Except.ok (cfg, w) →
      cfg.mindist = 85 ∧ cfg.maxdist = 115) := by
  constructor <;>
  · intro utc o cfg w hp hmin hmax hok
    have h := get_calc_ok_inv utc o _ hok
    injection h with h1 h2
    subst h1
    simp [calcBuild, calcMindist, calcMaxdist, pyTruthy, hp, hmin, hmax,
      distRange]

theorem calc_phase_default_distances_witness :
    (calcPres.1.mindist = 30 ∧ calcPres.1.maxdist = 100)
    ∧ (calcSKSres.1.mindist = 85 ∧ calcSKSres.1.maxdist = 115) :=
  ⟨calc_phase_default_distances.1 u0 calcInP calcPres.1 calcPres.2
      rfl rfl rfl rfl,
    calc_phase_default_distances.2 u0 calcInSKS calcSKSres.1 calcSKSres.2
      rfl rfl rfl rfl⟩

/-- C10: in the calc variant, a distance bound supplied as 0 is treated
exactly as if the flag were absent, because the source tests truthiness
rather than None: the whole resolution result is unchanged, so the zero is
silently replaced by the phase default instead of being rejected. -/
theorem calc_zero_bound_treated_absent (utc : String → Option ℚ) (o : CalcIn) :
    get_calc_options utc { o with mindist := some 0 }
      = get_calc_options utc { o with mindist := none }
    ∧ get_calc_options utc { o with maxdist := some 0 }
      = get_calc_options utc { o with maxdist := none } := by
  constructor <;> rfl

/-- C6: in the calc variant the SNR-window consistency rule is a soft
correction: whether resolution succeeds never depends on the dt_snr value,
and on success with dt_snr above dts the resolved dt_snr is dts minus 10
and the warning was printed.  For dt_snr 40 and dts 30 the resolved value
is 20 (see the witness). -/
theorem calc_snr_window_clamp (utc : String → Option ℚ) (o : CalcIn) (x : ℚ) :
    ((get_calc_options utc { o with dt_snr := x }).isOk
      = (get_calc_options utc o).isOk)
    ∧ ∀ (cfg : CalcOut) (w : List Warn),
        get_calc_options utc o = Except.ok (cfg, w) → o.dt_snr > o.dts →
        cfg.dt_snr = o.dts - 10 ∧ Warn.snrWindowClamped ∈ w := by
  constructor
  · rw [isOk_get_calc, isOk_get_calc]
    rfl
  · intro cfg w hok hgt
    have h := get_calc_ok_inv utc o _ hok
    injection h with h1 h2
    subst h1
    subst h2
    constructor
    · simp [calcBuild, calcDtSnr, hgt]
    · simp [calcWarns, hgt]

theorem calc_snr_window_clamp_witness :
    calc40res.1.dt_snr = (30 : ℚ) - 10 ∧ Warn.snrWindowClamped ∈ calc40res.2 :=
  (calc_snr_window_clamp u0 calcIn40 0).2 calc40res.1 calc40res.2 rfl
    (by decide)

/-- C7: in the harmonics variant, supplying azim while find-azim is set is
resolved softly: success then depends only on the remaining checks (times
and bp), and on success find_azim is False, azim keeps the supplied value
and the conflict warning was printed. -/
theorem harmonics_azim_conflict_soft (utc : String → Option ℚ) (o : HarmIn)
    (a : ℚ) (ha : o.azim = some a) (hf : o.find_azim = true) :
    ((get_harmonics_options utc o).isOk
      = (utcOk utc o.startT && utcOk utc o.endT && sortedArityOk 2 o.bp))
    ∧ ∀ (cfg : HarmOut) (w : List Warn),
        get_harmonics_options utc o = Except.ok (cfg, w) →
        cfg.find_azim = false ∧ cfg.azim = some a ∧ Warn.azimConflict ∈ w := by
  constructor
  · rw [isOk_get_harmonics]
    unfold harmOk harmFind
    simp [ha, hf]
  · intro cfg w hok
    have h := get_harmonics_ok_inv utc o _ hok
    injection h with h1 h2
    subst h1
    subst h2
    refine ⟨?_, ?_, ?_⟩
    · simp [harmBuild, harmFind, ha, hf]
    · simp [harmBuild, harmAzim, ha, hf]
    · simp [harmWarns, ha, hf]

theorem harmonics_azim_conflict_soft_witness :
    harm1res.1.find_azim = false ∧ harm1res.1.azim = some 10
      ∧ Warn.azimConflict ∈ harm1res.2 :=
  (harmonics_azim_conflict_soft u0 harmIn1 10 rfl rfl).2 harm1res.1
    harm1res.2 rfl

/-- C2, counterexample: the user-supplied pair (150, 100) for phase P is
not contained in the canonical interval [30, 100], yet resolution
succeeds, refuting the claim that every non-contained pair is rejected. -/
theorem calc_envelope_not_contained_cx :
    (get_calc_options u0 calcIn150).isOk = true
    ∧ calcIn150.phase = "P"
    ∧ calcIn150.mindist = some 150 ∧ calcIn150.maxdist = some 100
    ∧ ¬ ((30 : ℚ) ≤ 150 ∧ (150 : ℚ) ≤ 100) :=
  ⟨by decide, rfl, rfl, rfl, by norm_num⟩

/-- C2, amended: the calc resolver rejects exactly a defaulted mindist
below the canonical minimum or a defaulted maxdist above the canonical
maximum (not every non-contained pair): under such a violation resolution
never succeeds, and when the checks that run earlier (times, user
authentification, phase membership) pass it fails precisely with the
distance ValidationError stating the valid range.  Phase P with mindist 20
is an instance (see the witness). -/
theorem calc_distance_envelope_amended (utc : String → Option ℚ) (o : CalcIn)
    (hvio : calcMindist o < (distRange o.phase).1 ∨
      calcMaxdist o > (distRange o.phase).2) :
    (∀ r, get_calc_options utc o ≠ Except.ok r)
    ∧ ((utcOk utc o.startT && utcOk utc o.endT && userAuthOk o.UserAuth &&
        calcPhases.contains o.phase) = true →
      get_calc_options utc o =
        Except.error
          (Err.distOutOfRange (distRange o.phase).1 (distRange o.phase).2)) := by
  have hfail : distCheckFails o = true := by
    unfold distCheckFails
    rcases hvio with h | h <;> simp [h]
  constructor
  · intro r hok
    have h := isOk_get_calc utc o
    rw [hok] at h
    simp only [Except.isOk, Except.toBool] at h
    rw [calcOk] at h
    rw [hfail] at h
    simp at h
  · intro hpre
    simp only [Bool.and_eq_true] at hpre
    have hm : o.phase ∈ calcPhases := by simpa using hpre.2
    unfold get_calc_options
    rw [hfail]
    simp [hpre.1.1.1, hpre.1.1.2, hpre.1.2, hm]

theorem calc_distance_envelope_amended_witness :
    (get_calc_options u0 calcIn20 ≠ Except.ok (calcBuild u0 calcIn20, []))
    ∧ get_calc_options u0 calcIn20 = Except.error (Err.distOutOfRange 30 100) :=
  ⟨(calc_distance_envelope_amended u0 calcIn20 (by decide)).1 _,
    (calc_distance_envelope_amended u0 calcIn20 (by decide)).2 (by decide)⟩

/-- C4, counterexample: with exactly one of nbaz and nslow set but no
explicit phase, plot resolution fails (the phase default None is rejected),
refuting the unconditional claim that exactly one set implies success. -/
theorem plot_exactly_one_fails_cx :
    (get_plot_options plotInNbazOnly).isOk = false
    ∧ plotInNbazOnly.nbaz.isSome = true
    ∧ plotInNbazOnly.nslow.isSome = false := by decide

/-- C4, amended: with both nbaz and nslow set resolution fails, with
neither set it fails, and with exactly one set it succeeds precisely when
the remaining validations pass (a phase from the closed set and well-formed
slowbound, bazbound, bp and trange lists). -/
theorem plot_nbaz_nslow_amended (o : PlotIn) :
    (o.nbaz.isSome = true → o.nslow.isSome = true →
      ∀ r, get_plot_options o ≠ Except.ok r)
    ∧ (o.nbaz = none → o.nslow = none →
      ∀ r, get_plot_options o ≠ Except.ok r)
    ∧ (o.nbaz.isSome ≠ o.nslow.isSome →
      ((get_plot_options o).isOk =
        (sortedArityOk 2 o.slowbound && sortedArityOk 2 o.bazbound &&
          plotPhaseOk o && sortedArityOk 2 o.bp && sortedArityOk 2 o.trange))) := by
  refine ⟨?_, ?_, ?_⟩
  · intro hb hs r hok
    have h := isOk_get_plot o
    rw [hok] at h
    simp only [Except.isOk, Except.toBool] at h
    rw [plotOk] at h
    simp [hb, hs] at h
  · intro hb hs r hok
    have h := isOk_get_plot o
    rw [hok] at h
    simp only [Except.isOk, Except.toBool] at h
    rw [plotOk] at h
    simp [hb, hs] at h
  · intro hne
    rw [isOk_get_plot, plotOk]
    cases hb : o.nbaz <;> cases hs : o.nslow <;> rw [hb, hs] at hne <;>
      simp_all

theorem plot_nbaz_nslow_amended_witness :
    (get_plot_options plotInBoth ≠ Except.ok (plotBuild plotInBoth, []))
    ∧ (get_plot_options {} ≠ Except.ok (plotBuild {}, []))
    ∧ (get_plot_options plotInOne).isOk =
        (sortedArityOk 2 plotInOne.slowbound &&
          sortedArityOk 2 plotInOne.bazbound && plotPhaseOk plotInOne &&
          sortedArityOk 2 plotInOne.bp && sortedArityOk 2 plotInOne.trange) :=
  ⟨(plot_nbaz_nslow_amended plotInBoth).1 rfl rfl (plotBuild plotInBoth, []),
    (plot_nbaz_nslow_amended {}).2.1 rfl rfl (plotBuild {}, []),
    (plot_nbaz_nslow_amended plotInOne).2.2 (by decide)⟩

/-- C3: every comma-separated float-list option that is parsed with a
declared arity resolves to the ascending sort of its parsed values: the
H-k bp, slowbound, bazbound, hbound, kbound and weights options, the calc
pre-filt option; the sort is characterised as the ascending permutation of
the input, and on a descending pair it yields (min, max). -/
theorem parsed_lists_sorted :
    (∀ (utc : String → Option ℚ) (o : HkIn) (cfg : HkOut) (w : List Warn),
      get_hk_options utc o = Except.ok (cfg, w) →
      (∀ xs, o.bp = some xs → cfg.bp = pySorted xs) ∧
      (∀ xs, o.slowbound = some xs → cfg.slowbound = pySorted xs) ∧
      (∀ xs, o.bazbound = some xs → cfg.bazbound = pySorted xs) ∧
      (∀ xs, o.hbound = some xs → cfg.hbound = pySorted xs) ∧
      (∀ xs, o.kbound = some xs → cfg.kbound = pySorted xs) ∧
      (∀ xs, o.weights = some xs → cfg.weights = pySorted xs))
    ∧ (∀ (utc : String → Option ℚ) (o : CalcIn) (cfg : CalcOut) (w : List Warn),
      get_calc_options utc o = Except.ok (cfg, w) →
      ∀ xs, o.pre_filt = some xs → cfg.pre_filt = some (pySorted xs))
    ∧ (∀ l : List ℚ, (pySorted l).Sorted (· ≤ ·) ∧ (pySorted l).Perm l)
    ∧ (∀ a b : ℚ, b < a → pySorted [a, b] = [min a b, max a b]) := by
  refine ⟨?_, ?_, ?_, ?_⟩
  · intro utc o cfg w hok
    have h := get_hk_ok_inv utc o _ hok
    injection h with h1 h2
    subst h1
    refine ⟨?_, ?_, ?_, ?_, ?_, ?_⟩ <;> intro xs hxs <;>
      simp [hkBuild, resolveBound, hxs]
  · intro utc o cfg w hok xs hxs
    have h := get_calc_ok_inv utc o _ hok
    injection h with h1 h2
    subst h1
    simp [calcBuild, resolveOptBound, hxs]
  · intro l
    exact ⟨sorted_pySorted l, perm_pySorted l⟩
  · intro a b h
    exact pySorted_pair_gt h

theorem parsed_lists_sorted_witness :
    hk1res.1.bp = pySorted [5, 1]
    ∧ hk1res.1.weights = pySorted [3, 1, 2]
    ∧ pySorted [5, 1] = [min (5 : ℚ) 1, max (5 : ℚ) 1] :=
  ⟨(parsed_lists_sorted.1 u0 hkIn1 hk1res.1 hk1res.2 rfl).1 [5, 1] rfl,
    (parsed_lists_sorted.1 u0 hkIn1 hk1res.1 hk1res.2 rfl).2.2.2.2.2
      [3, 1, 2] rfl,
    parsed_lists_sorted.2.2.2 5 1 (by norm_num)⟩

/-- C1, counterexample: two resolved bounded fields violate low ≤ high.
In the calc variant the pair (90, 50) for phase P resolves successfully
with mindist above maxdist (the distance pair is envelope-checked, never
sorted), and in the H-k variant the default weight triple is returned as
(0.5, 2, -1), which is not ascending (only a user-supplied triple is
sorted). -/
theorem calc_pair_unordered_cx :
    ((get_calc_options u0 calcIn9050).isOk = true
      ∧ calc9050res.1.mindist = 90 ∧ calc9050res.1.maxdist = 50
      ∧ ¬ ((90 : ℚ) ≤ 50))
    ∧ ((get_hk_options u0 hkInDefault).isOk = true
      ∧ hkDefRes.1.weights = [1/2, 2, -1]
      ∧ ¬ (([1/2, 2, -1] : List ℚ).Sorted (· ≤ ·))) :=
  ⟨⟨by decide, rfl, rfl, by norm_num⟩,
    ⟨by decide, rfl, by norm_num [List.sorted_cons]⟩⟩

/-- C1, amended: on every successful resolution, every bounded field that
is built by the parse-and-sort scheme is ascending with its declared arity:
in the H-k variant bp, slowbound, bazbound, hbound and kbound (and bp_copy
when copy is set), and the weight triple has arity 3 but is ascending only
when user-supplied (its default (0.5, 2, -1) is returned unsorted); in the
calc and recalc variants pre-filt; in the harmonics variant bp and, when
find_azim survives, trange; in the plot variant slowbound, bazbound, bp and
trange.  The calc distance pair instead satisfies only the envelope bounds
(phase minimum ≤ mindist and maxdist ≤ phase maximum), not mindist ≤
maxdist.  The CCP coordinate pairs are positional, not bounds, and are not
sorted. -/
theorem bounded_pair_fields_amended :
    (∀ (utc : String → Option ℚ) (o : HkIn) (cfg : HkOut) (w : List Warn),
      get_hk_options utc o = Except.ok (cfg, w) →
      (cfg.bp.Sorted (· ≤ ·) ∧ cfg.bp.length = 2) ∧
      (cfg.slowbound.Sorted (· ≤ ·) ∧ cfg.slowbound.length = 2) ∧
      (cfg.bazbound.Sorted (· ≤ ·) ∧ cfg.bazbound.length = 2) ∧
      (cfg.hbound.Sorted (· ≤ ·) ∧ cfg.hbound.length = 2) ∧
      (cfg.kbound.Sorted (· ≤ ·) ∧ cfg.kbound.length = 2) ∧
      (cfg.weights.length = 3 ∧
        ∀ xs, o.weights = some xs → cfg.weights.Sorted (· ≤ ·)) ∧
      (o.copy = true → ∀ l, cfg.bp_copy = some l →
        l.Sorted (· ≤ ·) ∧ l.length = 2))
    ∧ (∀ (utc : String → Option ℚ) (o : CalcIn) (cfg : CalcOut) (w : List Warn),
      get_calc_options utc o = Except.ok (cfg, w) →
      (∀ l, cfg.pre_filt = some l → l.Sorted (· ≤ ·) ∧ l.length = 2) ∧
      ((distRange o.phase).1 ≤ cfg.mindist ∧
        cfg.maxdist ≤ (distRange o.phase).2))
    ∧ (∀ (o : RecalcIn) (cfg : RecalcOut) (w : List Warn),
      get_recalc_options o = Except.ok (cfg, w) →
      ∀ l, cfg.pre_filt = some l → l.Sorted (· ≤ ·) ∧ l.length = 2)
    ∧ (∀ (utc : String → Option ℚ) (o : HarmIn) (cfg : HarmOut) (w : List Warn),
      get_harmonics_options utc o = Except.ok (cfg, w) →
      (cfg.bp.Sorted (· ≤ ·) ∧ cfg.bp.length = 2) ∧
      (cfg.find_azim = true → ∀ l, cfg.trange = some l →
        l.Sorted (· ≤ ·) ∧ l.length = 2))
    ∧ (∀ (o : PlotIn) (cfg : PlotOut) (w : List Warn),
      get_plot_options o = Except.ok (cfg, w) →
      (cfg.slowbound.Sorted (· ≤ ·) ∧ cfg.slowbound.length = 2) ∧
      (cfg.bazbound.Sorted (· ≤ ·) ∧ cfg.bazbound.length = 2) ∧
      (∀ l, cfg.bp = some l → l.Sorted (· ≤ ·) ∧ l.length = 2) ∧
      (∀ l, cfg.trange = some l → l.Sorted (· ≤ ·) ∧ l.length = 2)) := by
  refine ⟨?_, ?_, ?_, ?_, ?_⟩
  · intro utc o cfg w hok
    have hOk := isOk_get_hk utc o
    rw [hok] at hOk
    simp only [Except.isOk, Except.toBool] at hOk
    replace hOk := hOk.symm
    simp only [hkOk, hkListsOk, Bool.and_eq_true] at hOk
    obtain ⟨-, ⟨⟨⟨⟨⟨⟨hbp, hsl⟩, hbz⟩, hbc⟩, hhb⟩, hkb⟩, hw⟩⟩ := hOk
    have hinv := get_hk_ok_inv utc o _ hok
    injection hinv with h1 h2
    subst h1
    simp only [hkBuild]
    refine ⟨?_, ?_, ?_, ?_, ?_, ⟨?_, ?_⟩, ?_⟩
    · exact resolveBound_prop [1/20, 1/2] 2 (by norm_num [List.sorted_cons])
        rfl o.bp hbp
    · exact resolveBound_prop [1/25, 2/25] 2 (by norm_num [List.sorted_cons])
        rfl o.slowbound hsl
    · exact resolveBound_prop [0, 360] 2 (by norm_num [List.sorted_cons])
        rfl o.bazbound hbz
    · exact resolveBound_prop [20, 50] 2 (by norm_num [List.sorted_cons])
        rfl o.hbound hhb
    · exact resolveBound_prop [39/25, 21/10] 2 (by norm_num [List.sorted_cons])
        rfl o.kbound hkb
    · exact resolveBound_length [1/2, 2, -1] 3 rfl o.weights hw
    · intro xs hxs
      simp only [resolveBound, hxs]
      exact sorted_pySorted xs
    · intro hc l hl
      rw [hc] at hl
      simp only [if_true, Option.some.injEq, reduceIte] at hl
      have harit : sortedArityOk 2 o.bp_copy = true := by
        simp only [Bool.not_and, Bool.or_eq_true, Bool.not_eq_true] at hbc
        rcases hbc with h | h
        · simp [hc] at h
        · simpa using h
      rw [← hl]
      exact resolveBound_prop [1/20, 7/20] 2 (by norm_num [List.sorted_cons])
        rfl o.bp_copy harit
  · intro utc o cfg w hok
    have hOk := isOk_get_calc utc o
    rw [hok] at hOk
    simp only [Except.isOk, Except.toBool] at hOk
    replace hOk := hOk.symm
    simp only [calcOk, Bool.and_eq_true] at hOk
    obtain ⟨⟨⟨⟨-, hnd⟩, hpf⟩, -⟩, -⟩ := hOk
    have hinv := get_calc_ok_inv utc o _ hok
    injection hinv with h1 h2
    subst h1
    simp only [calcBuild]
    constructor
    · intro l hl
      exact resolveOptBound_prop 2 o.pre_filt l hpf hl
    · constructor
      · by_contra hlt
        rw [not_le] at hlt
        simp [distCheckFails, hlt] at hnd
      · by_contra hlt
        rw [not_le] at hlt
        simp [distCheckFails, hlt] at hnd
  · intro o cfg w hok
    have hOk := isOk_get_recalc o
    rw [hok] at hOk
    simp only [Except.isOk, Except.toBool] at hOk
    replace hOk := hOk.symm
    simp only [recalcOk, Bool.and_eq_true] at hOk
    obtain ⟨-, hpf⟩ := hOk
    have hinv := get_recalc_ok_inv o _ hok
    injection hinv with h1 h2
    subst h1
    simp only [recalcBuild]
    intro l hl
    exact resolveOptBound_prop 2 o.pre_filt l hpf hl
  · intro utc o cfg w hok
    have hOk := isOk_get_harmonics utc o
    rw [hok] at hOk
    simp only [Except.isOk, Except.toBool] at hOk
    replace hOk := hOk.symm
    simp only [harmOk, Bool.and_eq_true] at hOk
    obtain ⟨⟨-, hbp⟩, htr⟩ := hOk
    have hinv := get_harmonics_ok_inv utc o _ hok
    injection hinv with h1 h2
    subst h1
    simp only [harmBuild]
    constructor
    · exact resolveBound_prop [1/20, 1/2] 2 (by norm_num [List.sorted_cons])
        rfl o.bp hbp
    · intro hf l hl
      rw [harmTrange, hf] at hl
      simp only [if_true, Option.some.injEq, reduceIte] at hl
      have harit : sortedArityOk 2 o.trange = true := by
        simp only [Bool.not_and, Bool.or_eq_true, Bool.not_eq_true] at htr
        rcases htr with h | h
        · simp [hf] at h
        · simpa using h
      rw [← hl]
      cases hxs : o.trange with
      | none => exact ⟨by norm_num [List.sorted_cons], rfl⟩
      | some xs =>
        rw [hxs] at harit
        exact ⟨sorted_pySorted xs, by simpa [sortedArityOk] using harit⟩
  · intro o cfg w hok
    have hOk := isOk_get_plot o
    rw [hok] at hOk
    simp only [Except.isOk, Except.toBool] at hOk
    replace hOk := hOk.symm
    simp only [plotOk, Bool.and_eq_true] at hOk
    obtain ⟨⟨⟨⟨⟨⟨hsl, hbz⟩, -⟩, hbp⟩, htr⟩, -⟩, -⟩ := hOk
    have hinv := get_plot_ok_inv o _ hok
    injection hinv with h1 h2
    subst h1
    simp only [plotBuild]
    refine ⟨?_, ?_, ?_, ?_⟩
    · exact resolveBound_prop [1/25, 2/25] 2 (by norm_num [List.sorted_cons])
        rfl o.slowbound hsl
    · exact resolveBound_prop [0, 360] 2 (by norm_num [List.sorted_cons])
        rfl o.bazbound hbz
    · intro l hl
      exact resolveOptBound_prop 2 o.bp l hbp hl
    · intro l hl
      exact resolveOptBound_prop 2 o.trange l htr hl

theorem bounded_pair_fields_amended_witness :
    (hk1res.1.bp.Sorted (· ≤ ·) ∧ hk1res.1.bp.length = 2)
    ∧ ((distRange calcIn9050.phase).1 ≤ calc9050res.1.mindist
      ∧ calc9050res.1.maxdist ≤ (distRange calcIn9050.phase).2) :=
  ⟨(bounded_pair_fields_amended.1 u0 hkIn1 hk1res.1 hk1res.2 rfl).1,
    (bounded_pair_fields_amended.2.1 u0 calcIn9050 calc9050res.1
      calc9050res.2 rfl).2⟩

end RfPy
